import Mathlib

/-!
Shallow embedding of src/src/brightness_backend/ddcci.rs (SwayOSD DDC/CI
brightness backend) and proofs about it.

Modelling conventions:
- Rust u32 arithmetic is Nat with an explicit reduction modulo 2^32 where the
  source performs a u32 multiplication or addition that could overflow
  (release-mode wrap-around semantics).
- The transport collaborator (ddc_hi) is modelled as data: a Monitor records
  the model name reported by enumeration and the outcome of
  handle.get_vcp_feature(0x10), which the source calls exactly once per
  inspected monitor during discovery.
- set_vcp_feature during set_raw is followed by expect, so a failing hardware
  write aborts the process; the success post-state is therefore the only
  post-state, and the mutating operations are modelled as pure state passing.
-/

/-- Reduction modulo 2^32: the wrap-around of Rust u32 arithmetic. -/
def u32 (n : Nat) : Nat := n % 4294967296

/-- Modelled from the spec: div_round_u32 is defined in crate::global_utils,
whose source file is not part of this snapshot (only its caller ddcci.rs is).
Spec section 4.1: scale(numerator, denominator) computes
round(numerator / denominator) using round-half-up, not truncation. -/
def div_round_u32 (n d : Nat) : Nat := (n + d / 2) / d

/-- Modelled from the spec: the mathematical round-half-up of n / d, written
independently of div_round_u32 as floor((2n + d) / 2d) = floor(n/d + 1/2),
used only to compare the code arithmetic against the spec wording. -/
def roundHalfUp (n d : Nat) : Nat := (2 * n + d) / (2 * d)

/-- Spec section 4.1: raw_from_percent(p, max) = scale(p * max, 100), with the
u32 product exactly as the callers in ddcci.rs compute it. -/
def raw_from_percent (p maxv : Nat) : Nat := div_round_u32 (u32 (p * maxv)) 100

/-- Spec section 4.1: percent_from_raw(r, max) = scale(r * 100, max), with the
u32 product exactly as get_percent in ddcci.rs computes it. -/
def percent_from_raw (r maxv : Nat) : Nat := div_round_u32 (u32 (r * 100)) maxv

/-- Opaque token standing for a ddc_hi error value returned by a failed
get_vcp_feature call. -/
structure ProbeErr where
  code : Nat
  deriving DecidableEq, Repr

/-- Result of a successful get_vcp_feature(0x10): ddc::VcpValue. The value and
maximum methods both return u16 in ddc_hi. -/
structure VcpValue where
  value : Nat
  maximum : Nat
  deriving DecidableEq, Repr

/-- Outcome of handle.get_vcp_feature(0x10): the Rust Result of the probe. -/
inductive ProbeResult where
  | ok (vcp_response : VcpValue)
  | error (e : ProbeErr)
  deriving DecidableEq, Repr

/-- One enumerated display: its reported model name (info.model_name) and the
outcome of probing the brightness feature on its handle. -/
structure Monitor where
  model_name : Option String
  probe : ProbeResult
  deriving DecidableEq, Repr

/-- Errors try_new can return: DeviceDoesntExistError with the name it carries,
or a ddc_hi probe error propagated by the question-mark operator in the
unnamed branch. -/
inductive DdcError where
  | deviceDoesntExist (device_name : String)
  | probe (e : ProbeErr)
  deriving DecidableEq, Repr

/-- struct DdcDevice: the selected display plus the cached current and max
brightness (u32 fields in the source, copied from the u16 VCP response). -/
structure DdcDevice where
  display : Monitor
  current : Nat
  max : Nat
  deriving DecidableEq, Repr

/-- DdcDevice::try_new. The named branch finds the first monitor whose
model_name equals Some(name) (position followed by swap_remove) and probes it;
both failure arms bail with DeviceDoesntExistError carrying the requested name
(device_name is Some here, so unwrap_or returns the name itself). In the
unnamed branch the source is a for loop over 0..displays.len() whose body
either returns Ok (probe succeeded) or returns the probe error through the
question-mark operator; no arm continues the loop, so only index 0 is ever
examined, and the trailing bail with "N/A" runs exactly when the list is
empty. -/
def DdcDevice.try_new (device_name : Option String) (displays : List Monitor) :
    Except DdcError DdcDevice :=
  match device_name with
  | some name =>
    match displays.find? (fun d => d.model_name == some name) with
    | some display =>
      match display.probe with
      | .ok vcp_response =>
        .ok { display := display,
              current := vcp_response.value,
              max := vcp_response.maximum }
      | .error _ => .error (.deviceDoesntExist name)
    | none => .error (.deviceDoesntExist name)
  | none =>
    match displays with
    | [] => .error (.deviceDoesntExist "N/A")
    | display :: _ =>
      match display.probe with
      | .ok vcp_response =>
        .ok { display := display,
              current := vcp_response.value,
              max := vcp_response.maximum }
      | .error e => .error (.probe e)

/-- DdcDevice::get_current. -/
def DdcDevice.get_current (d : DdcDevice) : Nat := d.current

/-- DdcDevice::get_max. -/
def DdcDevice.get_max (d : DdcDevice) : Nat := d.max

/-- DdcDevice::get_percent: div_round_u32(cur * 100, max) on u32 values. -/
def DdcDevice.get_percent (d : DdcDevice) : Nat :=
  div_round_u32 (u32 (d.get_current * 100)) d.get_max

/-- DdcDevice::set_raw: val.clamp(0, max) (the lower bound is vacuous on an
unsigned value, so the clamp is min with max), hardware write (whose failure
aborts the process through expect, leaving the success state as the only
post-state), then current is updated to the clamped value. -/
def DdcDevice.set_raw (d : DdcDevice) (val : Nat) : DdcDevice :=
  { d with current := min val d.get_max }

/-- DdcDevice::set_percent: clamp the percentage to [0, 100], scale it to raw
units with a u32 product, and delegate to set_raw. -/
def DdcDevice.set_percent (d : DdcDevice) (val : Nat) : DdcDevice :=
  d.set_raw (div_round_u32 (u32 (min val 100 * d.get_max)) 100)

/-- pub(super) struct Ddcci wrapping the device. -/
structure Ddcci where
  device : DdcDevice
  deriving DecidableEq, Repr

/-- BrightnessBackendConstructor::try_new for Ddcci: delegates to
DdcDevice::try_new and wraps the device. -/
def Ddcci.try_new (device_name : Option String) (displays : List Monitor) :
    Except DdcError Ddcci :=
  match DdcDevice.try_new device_name displays with
  | .ok d => .ok { device := d }
  | .error e => .error e

/-- BrightnessBackend::get_current for Ddcci. -/
def Ddcci.get_current (s : Ddcci) : Nat := s.device.get_current

/-- BrightnessBackend::get_max for Ddcci. -/
def Ddcci.get_max (s : Ddcci) : Nat := s.device.get_max

/-- BrightnessBackend::lower(by, min): the source locals are max, cur, step,
new_val (cur.saturating_sub(step), which is truncated Nat subtraction) and
min_raw; the parameters by and min are rendered bp and mp because by is a
Lean keyword and min a Lean function. All u32 products are reduced mod 2^32. -/
def Ddcci.lower (s : Ddcci) (bp mp : Nat) : Ddcci :=
  let maxv := s.device.get_max
  let cur := s.device.get_current
  let step := div_round_u32 (u32 (bp * maxv)) 100
  let new_val := cur - step
  let min_raw := div_round_u32 (u32 (mp * maxv)) 100
  { s with device := s.device.set_raw (max new_val min_raw) }

/-- BrightnessBackend::raise(by, min): new_val = (curr + step).min(max) with a
u32 addition, then the floor is applied and the result written. -/
def Ddcci.raise (s : Ddcci) (bp mp : Nat) : Ddcci :=
  let maxv := s.device.get_max
  let curr := s.device.get_current
  let step := div_round_u32 (u32 (bp * maxv)) 100
  let new_val := min (u32 (curr + step)) maxv
  let min_raw := div_round_u32 (u32 (mp * maxv)) 100
  { s with device := s.device.set_raw (max new_val min_raw) }

/-- BrightnessBackend::set(val, min): raw_val = div_round_u32(val.max(min) *
max, 100), written through set_raw. -/
def Ddcci.set (s : Ddcci) (v mp : Nat) : Ddcci :=
  let maxv := s.device.get_max
  let raw_val := div_round_u32 (u32 (max v mp * maxv)) 100
  { s with device := s.device.set_raw raw_val }

/-! Concrete fixtures used by witnesses and counterexamples. -/

/-- A fixed ddc_hi error value for probe failures in the fixtures. -/
def probeFailure : ProbeErr := { code := 0 }

/-- Monitor A of the spec discovery scenario: its brightness probe fails. -/
def monitorA : Monitor := { model_name := some "A", probe := .error probeFailure }

/-- Monitor B of the spec discovery scenario: probe succeeds with value 40 and
maximum 80. -/
def monitorB : Monitor :=
  { model_name := some "B", probe := .ok { value := 40, maximum := 80 } }

/-- A monitor that does not match the name used in named-discovery fixtures. -/
def monitorOther : Monitor :=
  { model_name := some "Other", probe := .ok { value := 1, maximum := 2 } }

/-- A monitor named M whose probe fails. -/
def monitorM : Monitor := { model_name := some "M", probe := .error probeFailure }

/-- A monitor whose probe succeeds but reports a zero brightness range. -/
def monitorZero : Monitor :=
  { model_name := some "Z", probe := .ok { value := 0, maximum := 0 } }

/-- A monitor whose probe reports a current value above the reported maximum. -/
def monitorSkew : Monitor :=
  { model_name := some "S", probe := .ok { value := 120, maximum := 100 } }

/-- A backend over a device with max = 100 and current = 50, the configuration
of the spec scenarios. -/
def ddcci100 : Ddcci :=
  { device := { display := monitorB, current := 50, max := 100 } }

/-! Helper lemmas about the converter. -/

/-- The result q of div_round_u32 n d satisfies 2dq ≤ 2n + d < 2dq + 2d for a
positive denominator, which pins it down as floor(n/d + 1/2). -/
lemma div_round_u32_bounds (n d : Nat) (hd : 0 < d) :
    2 * d * div_round_u32 n d ≤ 2 * n + d ∧
    2 * n + d < 2 * d * div_round_u32 n d + 2 * d := by
  have key := Nat.div_add_mod (n + d / 2) d
  have hmod : (n + d / 2) % d < d := Nat.mod_lt _ hd
  unfold div_round_u32
  rw [Nat.mul_assoc]
  generalize hq : (n + d / 2) / d = q at key ⊢
  generalize hr : (n + d / 2) % d = r at key hmod
  generalize hm : d * q = m at key ⊢
  omega

/-- div_round_u32 agrees with the mathematical round-half-up for positive
denominators. -/
lemma div_round_u32_eq_roundHalfUp (n d : Nat) (hd : 0 < d) :
    div_round_u32 n d = roundHalfUp n d := by
  obtain ⟨h1, h2⟩ := div_round_u32_bounds n d hd
  unfold roundHalfUp
  symm
  apply Nat.div_eq_of_lt_le
  · calc div_round_u32 n d * (2 * d) = 2 * d * div_round_u32 n d := by ring
      _ ≤ 2 * n + d := h1
  · calc 2 * n + d < 2 * d * div_round_u32 n d + 2 * d := h2
      _ = (div_round_u32 n d + 1) * (2 * d) := by ring

/-- Rounding a numerator at most k * d yields at most k. -/
lemma div_round_u32_le (n d k : Nat) (hd : 0 < d) (hn : n ≤ k * d) :
    div_round_u32 n d ≤ k := by
  unfold div_round_u32
  apply Nat.lt_succ_iff.mp
  rw [Nat.div_lt_iff_lt_mul hd]
  rw [Nat.succ_mul]
  have h2 : d / 2 < d := Nat.div_lt_self hd (by omega)
  generalize k * d = t at hn ⊢
  omega

/-- div_round_u32 is monotone in the numerator. -/
lemma div_round_u32_mono (n m d : Nat) (h : n ≤ m) :
    div_round_u32 n d ≤ div_round_u32 m d :=
  Nat.div_le_div_right (Nat.add_le_add_right h _)

/-- The u32 reduction is the identity below 2^32. -/
lemma u32_eq_of_lt (n : Nat) (h : n < 4294967296) : u32 n = n :=
  Nat.mod_eq_of_lt h

/-! Claim theorems. -/

/-- Claim C9: the scaling function used for every raw/percent conversion
computes round(numerator / denominator) with halves rounded up rather than
truncated: for positive denominators the result q is characterised by
2dq ≤ 2n + d < 2dq + 2d, i.e. q = floor(n/d + 1/2); moreover
scale(5,2) = 3, scale(4,2) = 2 and scale(1,3) = 0. -/
theorem div_round_u32_rounds_half_up :
    (∀ n d : Nat, 0 < d →
      2 * d * div_round_u32 n d ≤ 2 * n + d ∧
      2 * n + d < 2 * d * div_round_u32 n d + 2 * d) ∧
    div_round_u32 5 2 = 3 ∧ div_round_u32 4 2 = 2 ∧ div_round_u32 1 3 = 0 :=
  ⟨fun n d hd => div_round_u32_bounds n d hd, rfl, rfl, rfl⟩

/-- Witness for C9 at n = 5, d = 2. -/
theorem div_round_u32_rounds_half_up_witness :
    2 * 2 * div_round_u32 5 2 ≤ 2 * 5 + 2 ∧
    2 * 5 + 2 < 2 * 2 * div_round_u32 5 2 + 2 * 2 :=
  div_round_u32_rounds_half_up.1 5 2 (by decide)

/-- Claim C1 (code bug): with no device name and enumeration
[A (probe fails), B (probe succeeds, value 40, maximum 80)], try_new
propagates the probe error of A through the question-mark operator instead of
skipping to B: the for loop body returns on both arms, so no monitor after the
first is ever examined and the DeviceDoesntExistError with "N/A" is reachable
only for an empty enumeration, contrary to the stated discovery behaviour. -/
theorem try_new_unnamed_propagates_first_probe_error :
    DdcDevice.try_new none [monitorA, monitorB] = .error (.probe probeFailure) :=
  rfl

/-- Claim C6: named discovery failures carry exactly the requested name, both
when no enumerated monitor matches the model name and when the first matching
monitor fails its brightness probe; the two cases produce the same error. -/
theorem try_new_named_failure_carries_name (name : String)
    (displays : List Monitor) :
    (displays.find? (fun d => d.model_name == some name) = none →
      DdcDevice.try_new (some name) displays =
        .error (.deviceDoesntExist name)) ∧
    (∀ d e, displays.find? (fun d => d.model_name == some name) = some d →
      d.probe = .error e →
      DdcDevice.try_new (some name) displays =
        .error (.deviceDoesntExist name)) := by
  constructor
  · intro h
    simp only [DdcDevice.try_new, h]
  · intro d e hfind hprobe
    simp only [DdcDevice.try_new, hfind, hprobe]

/-- Witness for C6: the NoSuchModel scenario and a present-but-unsupported
monitor named M. -/
theorem try_new_named_failure_carries_name_witness :
    DdcDevice.try_new (some "NoSuchModel") [monitorOther] =
      .error (.deviceDoesntExist "NoSuchModel") ∧
    DdcDevice.try_new (some "M") [monitorM] =
      .error (.deviceDoesntExist "M") :=
  ⟨(try_new_named_failure_carries_name "NoSuchModel" [monitorOther]).1
      (by decide),
   (try_new_named_failure_carries_name "M" [monitorM]).2 monitorM probeFailure
      (by decide) rfl⟩

/-- Claim C7: after raise the stored current never exceeds the (unchanged)
max, for every step and floor argument: set_raw clamps the written value. -/
theorem raise_result_le_max (s : Ddcci) (bp mp : Nat) :
    (s.raise bp mp).device.current ≤ s.device.max := by
  simp only [Ddcci.raise, DdcDevice.set_raw, DdcDevice.get_max,
    DdcDevice.get_current]
  exact Nat.min_le_right _ _

/-- Claim C8: set computes the effective percent as max(value, floor) and
hands raw_from_percent(effective, max) to the bounds-checked write, so the
stored current is that raw value clamped to max; with max = 100,
set 5 10 stores raw value 10. -/
theorem set_uses_effective_percent (s : Ddcci) (v mp : Nat) :
    (s.set v mp).device.current =
      min (raw_from_percent (max v mp) s.device.max) s.device.max ∧
    (ddcci100.set 5 10).device.current = 10 :=
  ⟨rfl, by decide⟩

/-- Claim C4 (counterexample): try_new performs no positivity check on the
probed maximum: a monitor whose probe succeeds while reporting maximum = 0 is
selected, and the constructed device has max = 0. -/
theorem try_new_selects_zero_max :
    DdcDevice.try_new none [monitorZero] =
      .ok { display := monitorZero, current := 0, max := 0 } ∧
    DdcDevice.max { display := monitorZero, current := 0, max := 0 } = 0 :=
  ⟨rfl, rfl⟩

/-- Claim C4 (amended): a successfully constructed device copies the probed
values verbatim: the selected monitor probe succeeded and current and max are
exactly the probed value and maximum, so max > 0 holds precisely when the
probe reported a positive maximum; try_new adds no positivity check, and the
divisor in get_percent is this unchecked maximum. -/
theorem try_new_copies_probe_values (device_name : Option String)
    (displays : List Monitor) (d : DdcDevice)
    (h : DdcDevice.try_new device_name displays = .ok d) :
    ∃ vcp, d.display.probe = ProbeResult.ok vcp ∧
      d.current = vcp.value ∧ d.max = vcp.maximum := by
  unfold DdcDevice.try_new at h
  split at h
  · split at h
    · split at h
      · rename_i display hfind vcp hprobe
        cases h
        exact ⟨vcp, hprobe, rfl, rfl⟩
      · exact absurd h (by simp)
    · exact absurd h (by simp)
  · split at h
    · exact absurd h (by simp)
    · split at h
      · rename_i display rest vcp hprobe
        cases h
        exact ⟨vcp, hprobe, rfl, rfl⟩
      · exact absurd h (by simp)

/-- Witness for C4 (amended) at the unnamed-discovery success over monitor B. -/
theorem try_new_copies_probe_values_witness :
    ∃ vcp,
      (DdcDevice.mk monitorB 40 80).display.probe = ProbeResult.ok vcp ∧
      (DdcDevice.mk monitorB 40 80).current = vcp.value ∧
      (DdcDevice.mk monitorB 40 80).max = vcp.maximum :=
  try_new_copies_probe_values none [monitorB] (DdcDevice.mk monitorB 40 80) rfl

/-- Claim C5 (counterexample): the construction invariant fails when the probe
reports a current value above the maximum: the values are stored unchecked, so
the constructed device starts with current = 120 > max = 100. -/
theorem try_new_constructs_current_above_max :
    DdcDevice.try_new none [monitorSkew] =
      .ok { display := monitorSkew, current := 120, max := 100 } ∧
    DdcDevice.max { display := monitorSkew, current := 120, max := 100 } <
      DdcDevice.current { display := monitorSkew, current := 120, max := 100 } :=
  ⟨rfl, by decide⟩

/-- Claim C5 (amended): every mutating operation (set_raw, set_percent, and
raise, lower, set on the backend) establishes current ≤ max on its result and
leaves max unchanged (0 ≤ current is automatic on unsigned values); at
construction current and max are copied unchecked from the probe, so the
invariant holds there only when the probe reports value ≤ maximum. -/
theorem operations_establish_invariant (d : DdcDevice) (s : Ddcci)
    (v bp mp : Nat) :
    ((d.set_raw v).current ≤ (d.set_raw v).max ∧
      (d.set_raw v).max = d.max) ∧
    ((d.set_percent v).current ≤ (d.set_percent v).max ∧
      (d.set_percent v).max = d.max) ∧
    ((s.raise bp mp).device.current ≤ (s.raise bp mp).device.max ∧
      (s.raise bp mp).device.max = s.device.max) ∧
    ((s.lower bp mp).device.current ≤ (s.lower bp mp).device.max ∧
      (s.lower bp mp).device.max = s.device.max) ∧
    ((s.set v mp).device.current ≤ (s.set v mp).device.max ∧
      (s.set v mp).device.max = s.device.max) := by
  refine ⟨⟨?_, rfl⟩, ⟨?_, rfl⟩, ⟨?_, rfl⟩, ⟨?_, rfl⟩, ⟨?_, rfl⟩⟩ <;>
    exact Nat.min_le_right _ _

/-- Unfolded form of the current value stored by lower. -/
lemma lower_current_eq (s : Ddcci) (bp mp : Nat) :
    (s.lower bp mp).device.current =
      min (max (s.device.current - div_round_u32 (u32 (bp * s.device.max)) 100)
        (div_round_u32 (u32 (mp * s.device.max)) 100)) s.device.max := rfl

/-- Unfolded form of the current value stored by raise. -/
lemma raise_current_eq (s : Ddcci) (bp mp : Nat) :
    (s.raise bp mp).device.current =
      min (max (min (u32 (s.device.current +
            div_round_u32 (u32 (bp * s.device.max)) 100)) s.device.max)
        (div_round_u32 (u32 (mp * s.device.max)) 100)) s.device.max := rfl

/-- Unfolded form of the current value stored by set. -/
lemma set_current_eq (s : Ddcci) (v mp : Nat) :
    (s.set v mp).device.current =
      min (div_round_u32 (u32 (max v mp * s.device.max)) 100) s.device.max :=
  rfl

/-- Claim C2 (counterexample): the floor is not enforced for floor percentages
above 100: with max = 100 and current = 50, set 0 200 computes a floor of 200
raw units, but set_raw clamps the stored value to max = 100, below the floor. -/
theorem set_floor_above_max_breaks_floor :
    (ddcci100.set 0 200).device.current <
      raw_from_percent 200 ddcci100.device.max := by decide

/-- Claim C2 (amended): with floor_percent ≤ 100 (so the floor in raw units
cannot exceed max) and max below 2^16 (as probed from a 16-bit response),
every command stores a value of at least raw_from_percent(floor_percent, max);
for set the value percent must also be at most 100 so that its 32-bit product
does not wrap. -/
theorem commands_enforce_floor (s : Ddcci) (bp v mp : Nat)
    (hmax : s.device.max < 65536) (hmp : mp ≤ 100) :
    raw_from_percent mp s.device.max ≤ (s.lower bp mp).device.current ∧
    raw_from_percent mp s.device.max ≤ (s.raise bp mp).device.current ∧
    (v ≤ 100 →
      raw_from_percent mp s.device.max ≤ (s.set v mp).device.current) := by
  have hprod : mp * s.device.max < 4294967296 := by
    have h1 := Nat.mul_le_mul_right s.device.max hmp
    omega
  have hF : raw_from_percent mp s.device.max =
      div_round_u32 (mp * s.device.max) 100 := by
    unfold raw_from_percent
    rw [u32_eq_of_lt _ hprod]
  have hFle : div_round_u32 (mp * s.device.max) 100 ≤ s.device.max := by
    apply div_round_u32_le _ _ _ (by decide)
    have h1 := Nat.mul_le_mul_right s.device.max hmp
    omega
  refine ⟨?_, ?_, ?_⟩
  · rw [hF, lower_current_eq, u32_eq_of_lt _ hprod]
    exact le_min (le_max_right _ _) hFle
  · rw [hF, raise_current_eq, u32_eq_of_lt _ hprod]
    exact le_min (le_max_right _ _) hFle
  · intro hv
    have hvm : max v mp * s.device.max < 4294967296 := by
      have h2 : max v mp ≤ 100 := by omega
      have h1 := Nat.mul_le_mul_right s.device.max h2
      omega
    rw [hF, set_current_eq, u32_eq_of_lt _ hvm]
    refine le_min (div_round_u32_mono _ _ _ ?_) hFle
    exact Nat.mul_le_mul_right s.device.max (le_max_right v mp)

/-- Witness for C2 (amended) at the spec scenario max = 100, current = 50:
lower 20 30, raise 20 30 and set 5 30 all stay at or above the floor. -/
theorem commands_enforce_floor_witness :
    raw_from_percent 30 ddcci100.device.max ≤
      (ddcci100.lower 20 30).device.current ∧
    raw_from_percent 30 ddcci100.device.max ≤
      (ddcci100.raise 20 30).device.current ∧
    raw_from_percent 30 ddcci100.device.max ≤
      (ddcci100.set 5 30).device.current := by
  have h := commands_enforce_floor ddcci100 20 5 30 (by decide) (by decide)
  exact ⟨h.1, h.2.1, h.2.2 (by decide)⟩

/-- Claim C3 (counterexample): at max = 1000 and r = 5 the round trip
raw_from_percent(percent_from_raw(r, max), max) returns 10, five raw units
away from r, exceeding the claimed tolerance of one unit. -/
theorem roundtrip_tolerance_cex :
    raw_from_percent (percent_from_raw 5 1000) 1000 = 10 ∧
    5 + 1 < raw_from_percent (percent_from_raw 5 1000) 1000 := by decide

/-- Claim C3 (amended): for 0 < max < 2^16 and r ≤ max the round trip differs
from r by at most (max + 100) / 200, that is 200 * |rt - r| ≤ max + 100; the
claimed tolerance of one raw unit therefore holds whenever max ≤ 100, but not
in general. -/
theorem roundtrip_within_scaled_tolerance (maxv r : Nat) (hpos : 0 < maxv)
    (hmax : maxv < 65536) (hr : r ≤ maxv) :
    200 * (raw_from_percent (percent_from_raw r maxv) maxv - r) ≤ maxv + 100 ∧
    200 * (r - raw_from_percent (percent_from_raw r maxv) maxv) ≤ maxv + 100 ∧
    (maxv ≤ 100 →
      raw_from_percent (percent_from_raw r maxv) maxv - r ≤ 1 ∧
      r - raw_from_percent (percent_from_raw r maxv) maxv ≤ 1) := by
  have h100r : r * 100 < 4294967296 := by omega
  have hpfr : percent_from_raw r maxv = div_round_u32 (r * 100) maxv := by
    unfold percent_from_raw
    rw [u32_eq_of_lt _ h100r]
  have hple : div_round_u32 (r * 100) maxv ≤ 100 :=
    div_round_u32_le _ _ _ hpos (by omega)
  have hpm : div_round_u32 (r * 100) maxv * maxv < 4294967296 := by
    have h1 := Nat.mul_le_mul_right maxv hple
    omega
  have hrfp : raw_from_percent (div_round_u32 (r * 100) maxv) maxv =
      div_round_u32 (div_round_u32 (r * 100) maxv * maxv) 100 := by
    unfold raw_from_percent
    rw [u32_eq_of_lt _ hpm]
  rw [hpfr, hrfp]
  have B1 := div_round_u32_bounds (r * 100) maxv hpos
  have B2 := div_round_u32_bounds (div_round_u32 (r * 100) maxv * maxv) 100
    (by decide)
  have e1 : 2 * maxv * div_round_u32 (r * 100) maxv =
      2 * (div_round_u32 (r * 100) maxv * maxv) := by ring
  rw [e1] at B1
  generalize hA : div_round_u32 (r * 100) maxv * maxv = A at B1 B2 ⊢
  generalize hQ : div_round_u32 A 100 = q at B2 ⊢
  omega

/-- Witness for C3 (amended) at max = 100, r = 37. -/
theorem roundtrip_within_scaled_tolerance_witness :
    200 * (raw_from_percent (percent_from_raw 37 100) 100 - 37) ≤ 100 + 100 ∧
    200 * (37 - raw_from_percent (percent_from_raw 37 100) 100) ≤ 100 + 100 ∧
    (100 ≤ 100 →
      raw_from_percent (percent_from_raw 37 100) 100 - 37 ≤ 1 ∧
      37 - raw_from_percent (percent_from_raw 37 100) 100 ≤ 1) :=
  roundtrip_within_scaled_tolerance 100 37 (by decide) (by decide) (by decide)

/-- Claim C10: lower, raise and set multiply the caller percentage by max in
32-bit arithmetic before rounding (the embedding applies the mod-2^32
reduction exactly where the source multiplies u32 values); whenever the
products do not wrap, in particular for percentages up to 65535 against the
16-bit max, the computed step and floor equal the mathematical
round-half-up of p * max / 100. -/
theorem commands_use_rounded_products (s : Ddcci) (bp v mp : Nat)
    (hb : bp * s.device.max < 4294967296)
    (hm : mp * s.device.max < 4294967296)
    (hv : v * s.device.max < 4294967296)
    (hc : s.device.current < 65536) :
    (s.lower bp mp).device.current =
      min (max (s.device.current - roundHalfUp (bp * s.device.max) 100)
        (roundHalfUp (mp * s.device.max) 100)) s.device.max ∧
    (s.raise bp mp).device.current =
      min (max (min (s.device.current + roundHalfUp (bp * s.device.max) 100)
        s.device.max) (roundHalfUp (mp * s.device.max) 100)) s.device.max ∧
    (s.set v mp).device.current =
      min (roundHalfUp (max v mp * s.device.max) 100) s.device.max := by
  rw [lower_current_eq, raise_current_eq, set_current_eq]
  rw [u32_eq_of_lt _ hb, u32_eq_of_lt _ hm]
  have hvm : max v mp * s.device.max < 4294967296 := by
    rcases Nat.le_total v mp with h | h
    · rw [Nat.max_eq_right h]; exact hm
    · rw [Nat.max_eq_left h]; exact hv
  rw [u32_eq_of_lt _ hvm]
  have hstep : div_round_u32 (bp * s.device.max) 100 ≤ 42949673 := by
    have h2 : (bp * s.device.max + 50) / 100 ≤ 4294967345 / 100 :=
      Nat.div_le_div_right (by omega)
    show (bp * s.device.max + 100 / 2) / 100 ≤ 42949673
    omega
  have hsum : s.device.current + div_round_u32 (bp * s.device.max) 100 <
      4294967296 := by omega
  rw [u32_eq_of_lt _ hsum]
  rw [div_round_u32_eq_roundHalfUp (bp * s.device.max) 100 (by decide),
    div_round_u32_eq_roundHalfUp (mp * s.device.max) 100 (by decide),
    div_round_u32_eq_roundHalfUp (max v mp * s.device.max) 100 (by decide)]
  exact ⟨rfl, rfl, rfl⟩

/-- Witness for C10 at max = 100, current = 50 with lower 20 30, raise 20 30
and set 5 30. -/
theorem commands_use_rounded_products_witness :
    (ddcci100.lower 20 30).device.current = 30 ∧
    (ddcci100.raise 20 30).device.current = 70 ∧
    (ddcci100.set 5 30).device.current = 30 := by
  have h := commands_use_rounded_products ddcci100 20 5 30 (by decide)
    (by decide) (by decide) (by decide)
  exact ⟨h.1.trans (by decide), h.2.1.trans (by decide), h.2.2.trans (by decide)⟩
